import Mathlib

/-!
Verification of the locksmith secure-credential-storage contract
(`pkg/native/keychain.h`).

The repository ships only the C header declaring the contract surface;
the backend implementation lives outside `src/`.  The behavioural model
below is therefore built from the specification (sections 3, 4, 6 and 7
of the design document), faithful to its words: the store is a map from
`(service, account)` addresses to secrets, operations return tagged
envelopes (`KeychainResult`, `KeychainListResult`) mirroring the C
structs, and biometric gating is the caller-supplied per-call policy
that the specification records as the observed reference behaviour.
The header itself is embedded verbatim as data (`keychainHeaderDecls`)
for the claims that are about the declared signatures.
-/

set_option autoImplicit false
set_option linter.unusedVariables false

namespace Locksmith

/-- Modelled from the spec: `CredentialAddress` is the two-part
`(service, account)` namespace identifying a unique secret (spec section 3);
the implementation behind `keychain.h` is not under `src/`. -/
structure CredentialAddress where
  service : String
  account : String
deriving DecidableEq, Repr

/-- Modelled from the spec: a stored secret is a `SecretPayload` (raw byte
sequence with explicit length, arbitrary bytes including embedded zeros,
spec section 3) together with the `require_biometrics` flag supplied at
write time, which the spec describes as conceptually stored as metadata on
the secret (spec section 4.1).  The C `(data, length)` pair is modelled as
a byte list; its length is the explicit length. -/
structure StoredSecret where
  payload : List Nat
  requireBiometrics : Bool
deriving DecidableEq, Repr

/-- Modelled from the spec: the backend store, a finite partial map from
credential addresses to stored secrets, represented as an association
list (the platform secure-storage backend is not under `src/`). -/
abbrev Store := List (CredentialAddress × StoredSecret)

/-- Lookup of the secret stored at an address, if any. -/
def lookupSecret (st : Store) (addr : CredentialAddress) : Option StoredSecret :=
  (st.find? (fun e => decide (e.1 = addr))).map (fun e => e.2)

/-- Modelled from the spec: the closed error taxonomy of section 7. -/
inductive ErrKind where
  | notFound
  | authDenied
  | backendFault
  | invalidArgument
deriving DecidableEq, Repr

/-- Modelled from the spec: errors cross the boundary as a string message
inside the envelope (spec section 6); each kind has a distinct message. -/
def errMessage : ErrKind → String
  | .notFound => "not found"
  | .authDenied => "auth denied"
  | .backendFault => "backend fault"
  | .invalidArgument => "invalid argument"

/-- The `KeychainResult` struct of `keychain.h`: a `char *data` payload
pointer (here `Option (List Nat)`, `none` standing for `NULL`), a
`size_t length`, and a `char *error` message pointer
(`none` standing for `NULL`). -/
structure KeychainResult where
  data : Option (List Nat)
  length : Nat
  error : Option String
deriving DecidableEq, Repr

/-- The `KeychainListResult` struct of `keychain.h`: a `char **keys`
pointer (here `Option (List String)`), an `int count`, and a
`char *error` pointer. -/
structure KeychainListResult where
  keys : Option (List String)
  count : Nat
  error : Option String
deriving DecidableEq, Repr

/-- An `Ok` result envelope carrying a payload; the error pointer is null
and the length is the payload's explicit length. -/
def okResult (payload : List Nat) : KeychainResult :=
  { data := some payload, length := payload.length, error := none }

/-- An `Err` result envelope: null data, zero length, and the error kind's
message. -/
def errResult (k : ErrKind) : KeychainResult :=
  { data := none, length := 0, error := some (errMessage k) }

/-- An `Ok` list envelope: a non-null sequence of identifiers with `count`
equal to its length, and a null error pointer. -/
def okList (ks : List String) : KeychainListResult :=
  { keys := some ks, count := ks.length, error := none }

/-- An `Err` list envelope: null keys, count 0, and the error kind's
message. -/
def errList (k : ErrKind) : KeychainListResult :=
  { keys := none, count := 0, error := some (errMessage k) }

/-- Modelled from the spec: the environment's response to a native
authentication prompt — completed successfully, cancelled by the user,
failed, or timed out by the platform (spec sections 4.1 and 8). -/
inductive AuthOutcome where
  | granted
  | canceled
  | failed
  | timedOut
deriving DecidableEq, Repr

/-- Modelled from the spec: the authentication gate with the observed
reference policy — gating is decided solely by the caller-supplied
per-call `use_biometrics` flag; when it is set the operation proceeds
only if the prompt resolves to `granted` (spec section 4.1). -/
def gateAllows (use_biometrics : Bool) (outcome : AuthOutcome) : Bool :=
  !use_biometrics || decide (outcome = .granted)

/-- Modelled from the spec: `InvalidArgument` covers a malformed address
such as an empty service name, reported before any backend call is
attempted (spec section 7). -/
def validAddress (service account : String) : Bool :=
  decide (service ≠ "") && decide (account ≠ "")

/-- Modelled from the spec: `keychain_set` (declared in `keychain.h`, body
not under `src/`).  Stores the payload at `(service, account)` with upsert
semantics — any existing secret at the same address is overwritten, with
no separate create-vs-update error (spec section 4.2).  Returns the result
envelope and the updated store. -/
def keychain_set (st : Store) (service account : String) (data : List Nat)
    (require_biometrics : Bool) : KeychainResult × Store :=
  if validAddress service account then
    (okResult [],
      (⟨service, account⟩, ⟨data, require_biometrics⟩)
        :: st.filter (fun e => decide (e.1 ≠ (⟨service, account⟩ : CredentialAddress))))
  else
    (errResult .invalidArgument, st)

/-- Modelled from the spec: `keychain_get` (declared in `keychain.h`, body
not under `src/`).  Validates the address, applies the per-call
authentication gate, then retrieves the payload all-or-nothing: `Err`
of the not-found class if absent, `Err` of the auth-denied class if
gating fails (spec section 4.2). -/
def keychain_get (st : Store) (service account : String) (use_biometrics : Bool)
    (prompt : String) (outcome : AuthOutcome) : KeychainResult :=
  if !validAddress service account then
    errResult .invalidArgument
  else if !gateAllows use_biometrics outcome then
    errResult .authDenied
  else
    match lookupSecret st ⟨service, account⟩ with
    | some s => okResult s.payload
    | none => errResult .notFound

/-- Modelled from the spec: `keychain_delete` (declared in `keychain.h`,
body not under `src/`).  Validates, gates, then removes the secret;
deleting a non-existent address is reported as an error, never as a
silent success (spec section 4.2). -/
def keychain_delete (st : Store) (service account : String) (use_biometrics : Bool)
    (prompt : String) (outcome : AuthOutcome) : KeychainResult × Store :=
  if !validAddress service account then
    (errResult .invalidArgument, st)
  else if !gateAllows use_biometrics outcome then
    (errResult .authDenied, st)
  else
    match lookupSecret st ⟨service, account⟩ with
    | some _ =>
        (okResult [],
          st.filter (fun e => decide (e.1 ≠ (⟨service, account⟩ : CredentialAddress))))
    | none => (errResult .notFound, st)

/-- Modelled from the spec: `keychain_list` (declared in `keychain.h`,
body not under `src/`).  Gates, then enumerates all account identifiers
under the service namespace; no matches yields `Ok` with an empty
(non-null) sequence and count 0, not an error (spec section 4.2). -/
def keychain_list (st : Store) (service : String) (use_biometrics : Bool)
    (prompt : String) (outcome : AuthOutcome) : KeychainListResult :=
  if !gateAllows use_biometrics outcome then
    errList .authDenied
  else
    okList ((st.filter (fun e => decide (e.1.service = service))).map
      (fun e => e.1.account))

/-- Well-formedness of a result envelope (spec sections 3 and 8): exactly
one of the payload side (`data` non-null) and the error side (`error`
non-null) is populated, and on `Err` the data pointer is null and the
length is zero. -/
def wellFormedResult (r : KeychainResult) : Bool :=
  (r.data.isSome ^^ r.error.isSome) &&
    (!r.error.isSome || (decide (r.data = none) && decide (r.length = 0)))

/-- Well-formedness of a list envelope (spec section 3): exactly one of
the keys side and the error side is populated, `count` equals the number
of identifiers, and on `Err` the sequence is empty (null keys) with
count 0. -/
def wellFormedListResult (l : KeychainListResult) : Bool :=
  (l.keys.isSome ^^ l.error.isSome) &&
    decide (l.count = (l.keys.getD []).length) &&
    (!l.error.isSome || (decide (l.keys = none) && decide (l.count = 0)))

/-- Modelled from the spec: the heap resources an envelope can own across
the boundary (spec section 4.3) — the payload buffer, the error string,
the identifier string at a given index, and the keys container array.
The release functions behind `free_keychain_result` and
`free_keychain_list_result` are not under `src/`. -/
inductive Resource where
  | payloadBuffer
  | errorString
  | keyString (i : Nat)
  | listContainer
deriving DecidableEq, Repr

/-- The heap resources owned by a result envelope: the payload buffer when
`data` is non-null and the error string when `error` is non-null. -/
def resultResources (r : KeychainResult) : List Resource :=
  (match r.data with
   | some _ => [Resource.payloadBuffer]
   | none => []) ++
  (match r.error with
   | some _ => [Resource.errorString]
   | none => [])

/-- The heap resources owned by a list envelope: each identifier string
and the container array when `keys` is non-null, and the error string
when `error` is non-null. -/
def listResources (l : KeychainListResult) : List Resource :=
  (match l.keys with
   | some ks => (List.range ks.length).map Resource.keyString ++ [Resource.listContainer]
   | none => []) ++
  (match l.error with
   | some _ => [Resource.errorString]
   | none => [])

/-- Modelled from the spec: the trace of release actions performed by
`free_keychain_result` (declared in `keychain.h`, body not under `src/`):
it releases the payload buffer and/or the error string, whichever is
populated (spec section 4.3). -/
def free_keychain_result (r : KeychainResult) : List Resource :=
  (if r.data.isSome then [Resource.payloadBuffer] else []) ++
    (if r.error.isSome then [Resource.errorString] else [])

/-- Release of the first `n` identifier strings of a keys array, one at a
time in index order. -/
def freeKeyStrings : Nat → List Resource
  | 0 => []
  | n + 1 => freeKeyStrings n ++ [Resource.keyString n]

/-- Modelled from the spec: the trace of release actions performed by
`free_keychain_list_result` (declared in `keychain.h`, body not under
`src/`): it releases every contained identifier string and then the
container, plus the error string when populated (spec section 4.3). -/
def free_keychain_list_result (l : KeychainListResult) : List Resource :=
  (if l.keys.isSome then
    freeKeyStrings (l.keys.getD []).length ++ [Resource.listContainer]
   else []) ++
    (if l.error.isSome then [Resource.errorString] else [])

/-- The C declarations of `keychain.h`, embedded as data: parameter types
of the contract surface. -/
inductive CType where
  | ptrConstChar
  | ptrPtrChar
  | sizeT
  | cBool
  | cInt
  | structKeychainResult
  | structKeychainListResult
deriving DecidableEq, Repr

/-- A parameter of a C declaration in `keychain.h`: name and type. -/
structure CParam where
  name : String
  type : CType
deriving DecidableEq, Repr

/-- A function declaration of `keychain.h`: name, parameter list and
return type name. -/
structure CDecl where
  name : String
  params : List CParam
  ret : String
deriving DecidableEq, Repr

/-- The six function declarations of `src/pkg/native/keychain.h`,
transcribed verbatim. -/
def keychainHeaderDecls : List CDecl :=
  [ { name := "keychain_set",
      params := [ { name := "service", type := .ptrConstChar },
                  { name := "account", type := .ptrConstChar },
                  { name := "data", type := .ptrConstChar },
                  { name := "length", type := .sizeT },
                  { name := "require_biometrics", type := .cBool } ],
      ret := "KeychainResult" },
    { name := "keychain_get",
      params := [ { name := "service", type := .ptrConstChar },
                  { name := "account", type := .ptrConstChar },
                  { name := "use_biometrics", type := .cBool },
                  { name := "prompt", type := .ptrConstChar } ],
      ret := "KeychainResult" },
    { name := "keychain_delete",
      params := [ { name := "service", type := .ptrConstChar },
                  { name := "account", type := .ptrConstChar },
                  { name := "use_biometrics", type := .cBool },
                  { name := "prompt", type := .ptrConstChar } ],
      ret := "KeychainResult" },
    { name := "keychain_list",
      params := [ { name := "service", type := .ptrConstChar },
                  { name := "use_biometrics", type := .cBool },
                  { name := "prompt", type := .ptrConstChar } ],
      ret := "KeychainListResult" },
    { name := "free_keychain_result",
      params := [ { name := "result", type := .structKeychainResult } ],
      ret := "void" },
    { name := "free_keychain_list_result",
      params := [ { name := "result", type := .structKeychainListResult } ],
      ret := "void" } ]

theorem lookupSecret_cons_self (st : Store) (addr : CredentialAddress)
    (sec : StoredSecret) : lookupSecret ((addr, sec) :: st) addr = some sec := by
  simp [lookupSecret, List.find?]

/-- Claim C1: for every valid address and every payload of arbitrary bytes
with explicit length (interior zeros and length 0 included), a
`keychain_get` on the address after a successful `keychain_set` returns an
`Ok` envelope whose payload is byte-for-byte equal to the stored payload,
with equal length. -/
theorem set_get_roundTrip (st : Store) (service account : String)
    (payload : List Nat) (require_biometrics use_biometrics : Bool)
    (prompt : String) (outcome : AuthOutcome)
    (hv : validAddress service account = true)
    (hg : gateAllows use_biometrics outcome = true) :
    (keychain_set st service account payload require_biometrics).1.error = none ∧
    keychain_get (keychain_set st service account payload require_biometrics).2
      service account use_biometrics prompt outcome = okResult payload ∧
    (okResult payload).data = some payload ∧
    (okResult payload).length = payload.length := by
  refine ⟨?_, ?_, rfl, rfl⟩
  · simp [keychain_set, hv, okResult]
  · simp [keychain_set, hv, keychain_get, hg, lookupSecret_cons_self]

theorem set_get_roundTrip_witness :
    validAddress "svc" "acct" = true ∧ gateAllows true .granted = true ∧
    ((keychain_set [] "svc" "acct" [0, 255, 0] true).1.error = none ∧
     keychain_get (keychain_set [] "svc" "acct" [0, 255, 0] true).2
       "svc" "acct" true "unlock" .granted = okResult [0, 255, 0] ∧
     (okResult [0, 255, 0]).data = some [0, 255, 0] ∧
     (okResult [0, 255, 0]).length = ([0, 255, 0] : List Nat).length) :=
  ⟨by decide, by decide,
    set_get_roundTrip [] "svc" "acct" [0, 255, 0] true true "unlock" .granted
      (by decide) (by decide)⟩

theorem wellFormedResult_okResult (p : List Nat) :
    wellFormedResult (okResult p) = true := by
  simp [wellFormedResult, okResult]

theorem wellFormedResult_errResult (k : ErrKind) :
    wellFormedResult (errResult k) = true := by
  simp [wellFormedResult, errResult]

theorem wellFormedListResult_okList (ks : List String) :
    wellFormedListResult (okList ks) = true := by
  simp [wellFormedListResult, okList]

theorem wellFormedListResult_errList (k : ErrKind) :
    wellFormedListResult (errList k) = true := by
  simp [wellFormedListResult, errList]

/-- Claim C2: every envelope returned by any of the four operations is
well-formed — exactly one of the payload side and the error side is
populated; an `Err` result has null data and zero length; a list envelope
has `count` equal to the number of identifiers, with count 0 and a null
sequence on `Err`. -/
theorem envelope_invariant (st : Store) (service account : String)
    (data : List Nat) (require_biometrics use_biometrics : Bool)
    (prompt : String) (outcome : AuthOutcome) :
    wellFormedResult (keychain_set st service account data require_biometrics).1 = true ∧
    wellFormedResult (keychain_get st service account use_biometrics prompt outcome) = true ∧
    wellFormedResult (keychain_delete st service account use_biometrics prompt outcome).1 = true ∧
    wellFormedListResult (keychain_list st service use_biometrics prompt outcome) = true := by
  refine ⟨?_, ?_, ?_, ?_⟩
  · unfold keychain_set
    split <;> simp [wellFormedResult_okResult, wellFormedResult_errResult]
  · unfold keychain_get
    split
    · exact wellFormedResult_errResult _
    · split
      · exact wellFormedResult_errResult _
      · split <;> simp [wellFormedResult_okResult, wellFormedResult_errResult]
  · unfold keychain_delete
    split
    · exact wellFormedResult_errResult _
    · split
      · exact wellFormedResult_errResult _
      · split <;> simp [wellFormedResult_okResult, wellFormedResult_errResult]
  · unfold keychain_list
    split <;> simp [wellFormedListResult_okList, wellFormedListResult_errList]

/-- Claim C3: gating is decided solely by the caller-supplied per-call
flag.  A secret stored with `require_biometrics = true` and read or
deleted with `use_biometrics = false` behaves exactly as one stored with
`require_biometrics = false`; no requirement is enforced from the stored
metadata, and when the address is valid the ungated read returns the
payload. -/
theorem gating_per_call_only (st : Store) (service account : String)
    (payload : List Nat) (prompt : String) (outcome : AuthOutcome) :
    keychain_get (keychain_set st service account payload true).2
        service account false prompt outcome =
      keychain_get (keychain_set st service account payload false).2
        service account false prompt outcome ∧
    keychain_delete (keychain_set st service account payload true).2
        service account false prompt outcome =
      keychain_delete (keychain_set st service account payload false).2
        service account false prompt outcome ∧
    (validAddress service account = true →
      keychain_get (keychain_set st service account payload true).2
        service account false prompt outcome = okResult payload) := by
  by_cases hv : validAddress service account
  · refine ⟨?_, ?_, fun _ => ?_⟩ <;>
      simp [keychain_set, hv, keychain_get, keychain_delete, gateAllows,
        lookupSecret_cons_self]
  · simp [keychain_set, hv]

theorem gating_per_call_only_witness :
    validAddress "svc" "acct" = true ∧
    keychain_get (keychain_set [] "svc" "acct" [9, 9] true).2
      "svc" "acct" false "p" .canceled = okResult [9, 9] :=
  ⟨by decide,
    (gating_per_call_only [] "svc" "acct" [9, 9] "p" .canceled).2.2 (by decide)⟩

/-- Claim C4: when a gated operation is called with `use_biometrics =
true` and the prompt resolves to cancellation, failure or timeout
(anything but `granted`), the operation returns an `Err` envelope of the
distinct auth-denied kind — never the not-found kind and never `Ok`. -/
theorem auth_denied_on_gate_failure (st : Store) (service account : String)
    (prompt : String) (outcome : AuthOutcome)
    (hv : validAddress service account = true)
    (ho : outcome ≠ .granted) :
    keychain_get st service account true prompt outcome = errResult .authDenied ∧
    (keychain_delete st service account true prompt outcome).1 = errResult .authDenied ∧
    keychain_list st service true prompt outcome = errList .authDenied ∧
    (errResult .authDenied).error ≠ (errResult .notFound).error ∧
    (errResult .authDenied).data = none ∧
    (errResult .authDenied).error.isSome = true := by
  have hga : gateAllows true outcome = false := by
    simp [gateAllows, ho]
  refine ⟨?_, ?_, ?_, ?_, rfl, rfl⟩
  · simp [keychain_get, hv, hga]
  · simp [keychain_delete, hv, hga]
  · simp [keychain_list, hga]
  · simp [errResult, errMessage]

theorem auth_denied_on_gate_failure_witness :
    validAddress "svc" "acct" = true ∧ AuthOutcome.canceled ≠ AuthOutcome.granted ∧
    keychain_get [] "svc" "acct" true "p" .canceled = errResult .authDenied :=
  ⟨by decide, by decide,
    (auth_denied_on_gate_failure [] "svc" "acct" "p" .canceled (by decide)
      (by decide)).1⟩

/-- Claim C5: `keychain_set` has upsert semantics — two consecutive sets
at the same valid address both return `Ok` (no create-vs-update error),
and a subsequent get retrieves exactly the second payload. -/
theorem set_upsert (st : Store) (service account : String) (p1 p2 : List Nat)
    (b1 b2 use_biometrics : Bool) (prompt : String) (outcome : AuthOutcome)
    (hv : validAddress service account = true)
    (hg : gateAllows use_biometrics outcome = true) :
    (keychain_set st service account p1 b1).1.error = none ∧
    (keychain_set (keychain_set st service account p1 b1).2
      service account p2 b2).1.error = none ∧
    keychain_get (keychain_set (keychain_set st service account p1 b1).2
        service account p2 b2).2 service account use_biometrics prompt outcome =
      okResult p2 := by
  refine ⟨?_, ?_, ?_⟩ <;>
    simp [keychain_set, hv, okResult, keychain_get, hg, lookupSecret_cons_self]

theorem set_upsert_witness :
    validAddress "svc" "acct" = true ∧ gateAllows false .granted = true ∧
    keychain_get (keychain_set (keychain_set [] "svc" "acct" [1] false).2
        "svc" "acct" [2, 3] false).2 "svc" "acct" false "p" .granted =
      okResult [2, 3] :=
  ⟨by decide, by decide,
    (set_upsert [] "svc" "acct" [1] [2, 3] false false false "p" .granted
      (by decide) (by decide)).2.2⟩

/-- Claim C6: deleting a valid address at which no secret is stored
returns an `Err` envelope of the not-found kind — never `Ok` — and
leaves the store unchanged. -/
theorem delete_absent (st : Store) (service account : String)
    (use_biometrics : Bool) (prompt : String) (outcome : AuthOutcome)
    (hv : validAddress service account = true)
    (hg : gateAllows use_biometrics outcome = true)
    (habs : lookupSecret st ⟨service, account⟩ = none) :
    keychain_delete st service account use_biometrics prompt outcome =
      (errResult .notFound, st) ∧
    (errResult .notFound).data = none ∧
    (errResult .notFound).error = some (errMessage .notFound) := by
  refine ⟨?_, rfl, rfl⟩
  simp [keychain_delete, hv, hg, habs]

theorem delete_absent_witness :
    validAddress "svc" "acct" = true ∧ gateAllows false .granted = true ∧
    lookupSecret [(⟨"svc", "other"⟩, ⟨[7], false⟩)] ⟨"svc", "acct"⟩ = none ∧
    keychain_delete [(⟨"svc", "other"⟩, ⟨[7], false⟩)] "svc" "acct" false "p"
        .granted =
      (errResult .notFound, [(⟨"svc", "other"⟩, ⟨[7], false⟩)]) :=
  ⟨by decide, by decide, by decide,
    (delete_absent [(⟨"svc", "other"⟩, ⟨[7], false⟩)] "svc" "acct" false "p"
      .granted (by decide) (by decide) (by decide)).1⟩

theorem addr_eq_mk_iff (a : CredentialAddress) (s t : String) :
    a = ⟨s, t⟩ ↔ a.service = s ∧ a.account = t := by
  cases a with
  | mk x y => simp

/-- Claim C7: `keychain_list` returns, as a set, exactly the account
identifiers stored under the requested service namespace — every listed
account has a secret at `(service, account)`, and every stored account of
that service is listed; accounts of other services are excluded. -/
theorem list_complete (st : Store) (service : String) (use_biometrics : Bool)
    (prompt : String) (outcome : AuthOutcome)
    (hg : gateAllows use_biometrics outcome = true) :
    ∃ ks, keychain_list st service use_biometrics prompt outcome = okList ks ∧
      ∀ acct, acct ∈ ks ↔ (lookupSecret st ⟨service, acct⟩).isSome = true := by
  refine ⟨(st.filter (fun e => decide (e.1.service = service))).map
    (fun e => e.1.account), by simp [keychain_list, hg], ?_⟩
  intro acct
  simp only [lookupSecret, Option.isSome_map', List.find?_isSome, List.mem_map,
    List.mem_filter, decide_eq_true_eq]
  constructor
  · rintro ⟨e, ⟨hest, hsvc⟩, hacc⟩
    exact ⟨e, hest, (addr_eq_mk_iff _ _ _).mpr ⟨hsvc, hacc⟩⟩
  · rintro ⟨e, hest, heq⟩
    rcases (addr_eq_mk_iff _ _ _).mp heq with ⟨h1, h2⟩
    exact ⟨e, ⟨hest, h1⟩, h2⟩

theorem list_complete_witness :
    gateAllows false AuthOutcome.granted = true ∧
    ∃ ks, keychain_list
        [(⟨"svcA", "acc1"⟩, ⟨[1], false⟩), (⟨"svcA", "acc2"⟩, ⟨[2], true⟩),
         (⟨"svcB", "acc3"⟩, ⟨[3], false⟩)] "svcA" false "" .granted = okList ks ∧
      ∀ acct, acct ∈ ks ↔
        (lookupSecret
          [(⟨"svcA", "acc1"⟩, ⟨[1], false⟩), (⟨"svcA", "acc2"⟩, ⟨[2], true⟩),
           (⟨"svcB", "acc3"⟩, ⟨[3], false⟩)] ⟨"svcA", acct⟩).isSome = true :=
  ⟨by decide,
    list_complete
      [(⟨"svcA", "acc1"⟩, ⟨[1], false⟩), (⟨"svcA", "acc2"⟩, ⟨[2], true⟩),
       (⟨"svcB", "acc3"⟩, ⟨[3], false⟩)] "svcA" false "" .granted (by decide)⟩

/-- Claim C8: listing a service namespace that contains no stored secrets
returns an `Ok` envelope with count 0 and an empty, non-null sequence of
identifiers — not an `Err` envelope. -/
theorem list_empty_namespace (st : Store) (service : String)
    (use_biometrics : Bool) (prompt : String) (outcome : AuthOutcome)
    (hg : gateAllows use_biometrics outcome = true)
    (hempty : ∀ e ∈ st, e.1.service ≠ service) :
    keychain_list st service use_biometrics prompt outcome = okList [] ∧
    (okList ([] : List String)).keys = some [] ∧
    (okList ([] : List String)).count = 0 ∧
    (okList ([] : List String)).error = none := by
  refine ⟨?_, rfl, rfl, rfl⟩
  have hf : st.filter (fun e => decide (e.1.service = service)) = [] := by
    rw [List.filter_eq_nil_iff]
    intro e he
    simp [hempty e he]
  simp [keychain_list, hg, hf]

theorem list_empty_namespace_witness :
    gateAllows false AuthOutcome.granted = true ∧
    (∀ e ∈ [((⟨"svcB", "acc3"⟩ : CredentialAddress),
        (⟨[3], false⟩ : StoredSecret))], e.1.service ≠ "svcA") ∧
    keychain_list [(⟨"svcB", "acc3"⟩, ⟨[3], false⟩)] "svcA" false "" .granted =
      okList [] :=
  ⟨by decide, by decide,
    (list_empty_namespace [(⟨"svcB", "acc3"⟩, ⟨[3], false⟩)] "svcA" false ""
      .granted (by decide) (by decide)).1⟩

theorem freeKeyStrings_eq_map_range (n : Nat) :
    freeKeyStrings n = (List.range n).map Resource.keyString := by
  induction n with
  | zero => rfl
  | succ n ih => simp [freeKeyStrings, ih, List.range_succ]

theorem keyString_injective : Function.Injective Resource.keyString := by
  intro a b h
  injection h

theorem nodup_map_range_keyString (n : Nat) :
    ((List.range n).map Resource.keyString).Nodup :=
  (List.nodup_range n).map keyString_injective

/-- Claim C9: a single call to the release function of an envelope
reclaims exactly the resources that envelope owns — each populated
buffer and string exactly once (the release trace has no duplicates, so
no release path runs twice within the call), covering every owned
resource: for a list envelope every identifier string and then the
container, for a result envelope the payload buffer and/or error string,
whichever is populated. -/
theorem free_reclaims_all_exactly_once :
    (∀ r : KeychainResult, (free_keychain_result r).Nodup ∧
      ∀ res, res ∈ free_keychain_result r ↔ res ∈ resultResources r) ∧
    (∀ l : KeychainListResult, (free_keychain_list_result l).Nodup ∧
      ∀ res, res ∈ free_keychain_list_result l ↔ res ∈ listResources l) := by
  constructor
  · rintro ⟨d, len, err⟩
    cases d <;> cases err <;>
      simp [free_keychain_result, resultResources]
  · rintro ⟨ks, cnt, err⟩
    cases ks with
    | none =>
        cases err <;> simp [free_keychain_list_result, listResources]
    | some a =>
        have hfk := freeKeyStrings_eq_map_range a.length
        have hnd := nodup_map_range_keyString a.length
        have hcont : Resource.listContainer ∉
            (List.range a.length).map Resource.keyString := by
          simp
        have herr : Resource.errorString ∉
            (List.range a.length).map Resource.keyString := by
          simp
        cases err with
        | none =>
            constructor
            · simp only [free_keychain_list_result, Option.isSome_some,
                if_pos, Option.getD_some, hfk]
              simp [List.nodup_append, hnd, hcont]
            · intro res
              simp [free_keychain_list_result, listResources, hfk]
        | some m =>
            constructor
            · simp only [free_keychain_list_result, Option.isSome_some,
                if_pos, Option.getD_some, hfk]
              simp only [List.nodup_append, List.disjoint_singleton]
              refine ⟨⟨hnd, List.nodup_singleton _, ?_⟩,
                List.nodup_singleton _, ?_⟩
              · exact fun hx => hcont hx
              · intro hx
                rcases List.mem_append.mp hx with hx | hx
                · exact herr hx
                · simp at hx
            · intro res
              simp [free_keychain_list_result, listResources, hfk]

/-- Claim C10: the header exposes exactly one signature per operation —
the six declaration names are pairwise distinct and are exactly the four
operations plus the two release functions — and the single signatures of
`keychain_delete` and `keychain_list` both carry the caller-supplied
gating parameters `use_biometrics` (C `bool`) and `prompt`
(C `const char *`), so no ungated variant of delete or list exists. -/
theorem header_one_gated_signature_per_operation :
    keychainHeaderDecls.map CDecl.name =
      ["keychain_set", "keychain_get", "keychain_delete", "keychain_list",
       "free_keychain_result", "free_keychain_list_result"] ∧
    (keychainHeaderDecls.map CDecl.name).Nodup ∧
    (keychainHeaderDecls.filter (fun d => decide (d.name = "keychain_delete"))).all
      (fun d =>
        decide (({ name := "use_biometrics", type := CType.cBool } : CParam)
            ∈ d.params) &&
        decide (({ name := "prompt", type := CType.ptrConstChar } : CParam)
            ∈ d.params)) = true ∧
    (keychainHeaderDecls.filter (fun d => decide (d.name = "keychain_list"))).all
      (fun d =>
        decide (({ name := "use_biometrics", type := CType.cBool } : CParam)
            ∈ d.params) &&
        decide (({ name := "prompt", type := CType.ptrConstChar } : CParam)
            ∈ d.params)) = true := by
  refine ⟨rfl, ?_, ?_, ?_⟩ <;> decide

end Locksmith
